import Mathlib

/-
  Verification development for the Stratolink flight-control core.

  The repository consists of the hardware description board.h, the
  configuration header config.h, and placeholder firmware (PowerManager,
  RegionManager, main.cpp).  The control components named by the design
  document (EnergyMonitor, RfArbiter, SensorScheduler, FreefallMonitor,
  FlightStateMachine) are not implemented under src; where a definition
  below embeds one of them it is modelled from the specification text and
  says so in its doc comment.  Constants are embedded from board.h and
  config.h verbatim.
-/

namespace Stratolink

/-- Discrete operating-capability tiers, from most to least capable
(board.h graduated power shedding thresholds, spec section 3). -/
inductive PowerTier
  | full
  | reduced
  | noGps
  | emergency
  deriving DecidableEq, Repr

/-- Capability rank of a tier: a larger rank means more capable.  Used to
state that one tier is higher or lower than another. -/
def PowerTier.rank : PowerTier → ℕ
  | .emergency => 0
  | .noGps => 1
  | .reduced => 2
  | .full => 3

/-- Flight mode (spec section 3): normal float or freefall-triggered descent. -/
inductive FlightMode
  | float
  | descent
  deriving DecidableEq, Repr

/-! ## Constants embedded from board.h and config.h

Voltage constants appear in board.h as float literals in volts; they are
embedded as exact rationals.  Millivolt integer versions are used by the
integer-arithmetic monitor model. -/

/-- board.h: POWER_TIER_FULL_V, 4.5f volts. -/
def POWER_TIER_FULL_V : ℚ := 4.5

/-- board.h: POWER_TIER_REDUCED_V, 3.5f volts. -/
def POWER_TIER_REDUCED_V : ℚ := 3.5

/-- board.h: POWER_TIER_NO_GPS_V, 3.0f volts. -/
def POWER_TIER_NO_GPS_V : ℚ := 3.0

/-- board.h: POWER_TIER_EMERGENCY_V, 2.8f volts. -/
def POWER_TIER_EMERGENCY_V : ℚ := 2.8

/-- board.h: SUPERCAP_MAX_V, 5.36f volts (VBAT_OV minus margin). -/
def SUPERCAP_MAX_V : ℚ := 5.36

/-- board.h: SUPERCAP_MIN_V, 2.51f volts (below VBAT_OK_FALL). -/
def SUPERCAP_MIN_V : ℚ := 2.51

/-- board.h: BQ25570_VBAT_OK_RISE_MV, millivolts at which VBAT_OK asserts. -/
def BQ25570_VBAT_OK_RISE_MV : ℤ := 3510

/-- board.h: BQ25570_VBAT_OK_FALL_MV, millivolts at which VBAT_OK deasserts. -/
def BQ25570_VBAT_OK_FALL_MV : ℤ := 1692

/-- board.h: BQ25570_VOUT_NOMINAL_MV, buck output in millivolts. -/
def BQ25570_VOUT_NOMINAL_MV : ℤ := 3312

/-- board.h: VSTOR_DIVIDER_RATIO, 2.0f — multiply the ADC voltage by this
to recover VSTOR (both divider resistors are 1 MΩ). -/
def VSTOR_DIVIDER_RATIO : ℚ := 2.0

/-- board.h: SOLAR_DIVIDER_RATIO, 2.0f — multiply the ADC voltage by this
to recover the solar rail voltage. -/
def SOLAR_DIVIDER_RATIO : ℚ := 2.0

/-- config.h: TRANSMIT_INTERVAL_SEC. -/
def TRANSMIT_INTERVAL_SEC : ℕ := 60

/-- board.h POWER_TIER_FULL_V expressed in integer millivolts. -/
def POWER_TIER_FULL_MV : ℤ := 4500

/-- board.h POWER_TIER_REDUCED_V expressed in integer millivolts. -/
def POWER_TIER_REDUCED_MV : ℤ := 3500

/-- board.h POWER_TIER_NO_GPS_V expressed in integer millivolts. -/
def POWER_TIER_NO_GPS_MV : ℤ := 3000

/-- board.h POWER_TIER_EMERGENCY_V expressed in integer millivolts. -/
def POWER_TIER_EMERGENCY_MV : ℤ := 2800

/-- board.h SUPERCAP_MAX_V expressed in integer millivolts. -/
def SUPERCAP_MAX_MV : ℤ := 5360

/-- board.h SUPERCAP_MIN_V expressed in integer millivolts. -/
def SUPERCAP_MIN_MV : ℤ := 2510

/-! ## Single-point tier classifier

board.h documents exactly one threshold constant per tier ("graduated
power shedding thresholds") and no firmware tier-classification code
exists under src. -/

/-- Modelled from the spec: the single-threshold tier classifier implied by
the four POWER_TIER constants of board.h (tier boundaries at
4.5 / 3.5 / 3.0 / 2.8 V per spec section 9, with no separate rise and fall
values).  The argument is a stored voltage in millivolts. -/
def tierFromVoltageMv (v : ℤ) : PowerTier :=
  if POWER_TIER_FULL_MV ≤ v then .full
  else if POWER_TIER_REDUCED_MV ≤ v then .reduced
  else if POWER_TIER_NO_GPS_MV ≤ v then .noGps
  else .emergency

/-- The three internal tier boundaries of the classifier, each with the
tier directly above it and the tier directly below it. -/
def tierBoundaries : List (ℤ × PowerTier × PowerTier) :=
  [(POWER_TIER_FULL_MV, .full, .reduced),
   (POWER_TIER_REDUCED_MV, .reduced, .noGps),
   (POWER_TIER_NO_GPS_MV, .noGps, .emergency)]

/-! ## Hysteretic energy monitor

Spec section 4.1: enter a lower tier when voltage drops below its enter
threshold; return to a higher tier only when voltage rises above a
separate, higher exit threshold, with a band of at least 0.2 V.  Spec
section 9 records that the source gives only single-point thresholds, so
the band is a modelling choice fixed at the recommended 0.2 V. -/

/-- Modelled from the spec: the hysteresis band (0.2 V, the minimum the
spec recommends), in millivolts.  No such constant exists in board.h. -/
def HYSTERESIS_BAND_MV : ℤ := 200

/-- Falling enter threshold of a tier, in millivolts: the voltage below
which that tier is abandoned for a lower one.  The emergency tier has no
lower tier; its constant is recorded for completeness. -/
def PowerTier.enterMv : PowerTier → ℤ
  | .full => POWER_TIER_FULL_MV
  | .reduced => POWER_TIER_REDUCED_MV
  | .noGps => POWER_TIER_NO_GPS_MV
  | .emergency => POWER_TIER_EMERGENCY_MV

/-- Rising exit threshold of a tier, in millivolts: the voltage that must
be exceeded before that tier is re-entered from below. -/
def PowerTier.exitMv (t : PowerTier) : ℤ := t.enterMv + HYSTERESIS_BAND_MV

/-- Modelled from the spec: the rising classifier, the single-point
classifier shifted up by the hysteresis band. -/
def tierFromVoltageRiseMv (v : ℤ) : PowerTier :=
  if POWER_TIER_FULL_MV + HYSTERESIS_BAND_MV ≤ v then .full
  else if POWER_TIER_REDUCED_MV + HYSTERESIS_BAND_MV ≤ v then .reduced
  else if POWER_TIER_NO_GPS_MV + HYSTERESIS_BAND_MV ≤ v then .noGps
  else .emergency

/-- Modelled from the spec: the per-reading tier transition of
EnergyMonitor (no EnergyMonitor exists under src).  The persisted tier is
lowered to the falling classification when the voltage has dropped below
the current tier, raised to the rising classification when the voltage
has risen above a higher exit threshold, and kept unchanged otherwise. -/
def updateTier (prev : PowerTier) (v : ℤ) : PowerTier :=
  if (tierFromVoltageMv v).rank < prev.rank then tierFromVoltageMv v
  else if prev.rank < (tierFromVoltageRiseMv v).rank then tierFromVoltageRiseMv v
  else prev

/-- The persisted tier after a sequence of stored-voltage readings has
been processed, one updateTier transition per reading. -/
def persistedTier (init : PowerTier) (vs : List ℤ) : PowerTier :=
  vs.foldl updateTier init

/-! ## Sensor scheduler

Spec section 4.3.  No SensorScheduler exists under src; cadence values the
spec leaves qualitative (further reduced, slowest safe, fastest the tier
can sustain) are fixed as representative constants. -/

/-- Per-tick sensor plan (spec section 3): which sensors to sample this
tick and the beacon cadence, recomputed every tick. -/
structure SensorPlan where
  includeGps : Bool
  includeImu : Bool
  includeBaro : Bool
  includeTemp : Bool
  includeUv : Bool
  includeMic : Bool
  beaconIntervalTicks : ℕ
  deriving DecidableEq, Repr

/-- Modelled from the spec: float-mode beacon interval per tier (every
tick, every 2nd tick, further reduced, slowest safe cadence). -/
def baseIntervalTicks : PowerTier → ℕ
  | .full => 1
  | .reduced => 2
  | .noGps => 4
  | .emergency => 8

/-- Modelled from the spec: descent-mode beacon interval, the fastest rate
the current tier can sustain (minimum safe interval, not unconditionally
every tick). -/
def descentIntervalTicks : PowerTier → ℕ
  | .full => 1
  | .reduced => 1
  | .noGps => 2
  | .emergency => 4

/-- Modelled from the spec: SensorScheduler.plan (no SensorScheduler
exists under src).  A pure function of tier, mode and tick index.  Descent
overrides the cadence and always includes GPS, except that the Emergency
tier still excludes GPS. -/
def sensorPlan (tier : PowerTier) (mode : FlightMode) (tickIndex : ℕ) : SensorPlan :=
  let base : SensorPlan :=
    match tier with
    | .full => ⟨true, true, true, true, true, true, baseIntervalTicks .full⟩
    | .reduced => ⟨true, false, true, true, false, false, baseIntervalTicks .reduced⟩
    | .noGps => ⟨false, false, true, true, false, false, baseIntervalTicks .noGps⟩
    | .emergency => ⟨false, false, false, false, false, false, baseIntervalTicks .emergency⟩
  match mode with
  | .float => base
  | .descent =>
      { base with
        includeGps := match tier with
          | .emergency => false
          | _ => true,
        beaconIntervalTicks := descentIntervalTicks tier }

/-! ## Freefall monitor

Spec section 4.4.  No FreefallMonitor exists under src.  The latch is a
single boolean; the interrupt handler only sets it, and consumeEvent is
the unique reader and the unique clearer. -/

/-- Modelled from the spec: FreefallMonitor.consumeEvent.  Returns the
observed latch value and the cleared latch, as one atomic step. -/
def consumeEvent (latch : Bool) : Bool × Bool := (latch, false)

/-- The operations that can touch the freefall latch: the interrupt
handler setting it, the main path consuming it, and any other main-path
work, which leaves it alone. -/
inductive FfOp
  | interruptFire
  | consume
  | mainStep
  deriving DecidableEq, Repr

/-- Effect of one operation on the latch. -/
def ffStep (latch : Bool) : FfOp → Bool
  | .interruptFire => true
  | .consume => (consumeEvent latch).2
  | .mainStep => latch

/-- The latch after a sequence of operations. -/
def ffRun (latch : Bool) (ops : List FfOp) : Bool :=
  ops.foldl ffStep latch

/-! ## RF arbiter

Spec section 4.2.  No RfArbiter exists under src.  The state keeps one
lease flag per resource rather than a single option field, so mutual
exclusion is a proved invariant instead of being true by construction. -/

/-- The two users of the shared RF front end. -/
inductive RfResource
  | gpsAcquisition
  | loraTransmission
  deriving DecidableEq, Repr

/-- The opposite resource. -/
def RfResource.other : RfResource → RfResource
  | .gpsAcquisition => .loraTransmission
  | .loraTransmission => .gpsAcquisition

/-- Lease flags of the arbiter, one per resource. -/
structure RfArbiterState where
  gpsLeased : Bool
  loraLeased : Bool
  deriving DecidableEq, Repr

/-- Initial arbiter state: nothing leased. -/
def rfInit : RfArbiterState := ⟨false, false⟩

/-- Whether a given resource currently holds a lease. -/
def RfArbiterState.leased (st : RfArbiterState) : RfResource → Bool
  | .gpsAcquisition => st.gpsLeased
  | .loraTransmission => st.loraLeased

/-- True when both lease flags would be set at once; the arbiter invariant
is that this never happens. -/
def RfArbiterState.bothLeased (st : RfArbiterState) : Bool :=
  st.gpsLeased && st.loraLeased

/-- Outcome of an acquire call. -/
inductive AcquireResult
  | granted
  | busy
  deriving DecidableEq, Repr

/-- Whether an acquire outcome is the Busy failure. -/
def AcquireResult.isBusy : AcquireResult → Bool
  | .granted => false
  | .busy => true

/-- Modelled from the spec: RfArbiter.acquire (no RfArbiter exists under
src).  The lease token is exclusive and non-reentrant, so an acquire
fails with Busy whenever any lease is outstanding, and otherwise grants
a lease on the requested resource. -/
def acquire (st : RfArbiterState) (r : RfResource) : AcquireResult × RfArbiterState :=
  if st.gpsLeased || st.loraLeased then (.busy, st)
  else
    match r with
    | .gpsAcquisition => (.granted, ⟨true, st.loraLeased⟩)
    | .loraTransmission => (.granted, ⟨st.gpsLeased, true⟩)

/-- Modelled from the spec: RfArbiter.release, clearing the lease of the
released resource. -/
def release (st : RfArbiterState) (r : RfResource) : RfArbiterState :=
  match r with
  | .gpsAcquisition => ⟨false, st.loraLeased⟩
  | .loraTransmission => ⟨st.gpsLeased, false⟩

/-- One call in an interleaving of acquire and release calls. -/
inductive RfOp
  | acq (r : RfResource)
  | rel (r : RfResource)
  deriving DecidableEq, Repr

/-- State transition of one arbiter call. -/
def rfStep (st : RfArbiterState) : RfOp → RfArbiterState
  | .acq r => (acquire st r).2
  | .rel r => release st r

/-- Arbiter state after an arbitrary interleaving of calls, starting from
the initial state. -/
def rfRun (ops : List RfOp) : RfArbiterState :=
  ops.foldl rfStep rfInit

/-! ## Energy monitor update

Spec section 4.1.  No EnergyMonitor exists under src.  Raw ADC readings
are in millivolts; the symmetric 1 MΩ dividers halve the rail voltage, so
the recovered rail voltage is twice the raw reading. -/

/-- Status reported by an energy monitor update. -/
inductive MonitorStatus
  | ok
  | outOfRange
  deriving DecidableEq, Repr

/-- Result of one EnergyMonitor.update call. -/
structure EnergyUpdateResult where
  storedVoltageMv : ℤ
  solarVoltageMv : ℤ
  tier : PowerTier
  status : MonitorStatus
  deriving DecidableEq, Repr

/-- Modelled from the spec: the largest physically possible recovered
solar-rail reading, taken as the divider output at the ADC full scale
(twice BQ25570_VOUT_NOMINAL_MV); board.h gives no dedicated solar
maximum. -/
def SOLAR_RAIL_MAX_MV : ℤ := 2 * BQ25570_VOUT_NOMINAL_MV

/-- Modelled from the spec: EnergyMonitor.update (no EnergyMonitor exists
under src).  Both raw readings are scaled by the divider ratio of two to
recover rail voltages.  A reading that is negative or above the supply
rail equivalent of its divider is physically impossible: the update then
reports OutOfRange and forces the Emergency tier instead of deriving a
tier from the bogus reading.  Otherwise the persisted tier moves by the
hysteretic transition updateTier. -/
def energyUpdate (prev : PowerTier) (rawStoredMv rawSolarMv : ℤ) : EnergyUpdateResult :=
  if 0 ≤ rawStoredMv ∧ 2 * rawStoredMv ≤ SUPERCAP_MAX_MV ∧
      0 ≤ rawSolarMv ∧ 2 * rawSolarMv ≤ SOLAR_RAIL_MAX_MV then
    ⟨2 * rawStoredMv, 2 * rawSolarMv, updateTier prev (2 * rawStoredMv), .ok⟩
  else
    ⟨2 * rawStoredMv, 2 * rawSolarMv, .emergency, .outOfRange⟩

/-! ## Flight state machine wake cycle

Spec sections 4.5 and 2.  No FlightStateMachine exists under src; the
placeholder loop in main.cpp only delays a fixed interval.  One wake
cycle: consume the freefall latch first, update the energy tier, compute
the sensor plan, and hand the wake timer its single parameter, the sleep
duration derived from the beacon interval of the plan. -/

/-- Process-wide state surviving deep sleep (spec section 3). -/
structure FlightState where
  mode : FlightMode
  tier : PowerTier
  freefallLatch : Bool
  tickIndex : ℕ
  deriving DecidableEq, Repr

/-- Everything one wake cycle produces, including the single value handed
back to the external wake-timer collaborator. -/
structure CycleOutput where
  plan : SensorPlan
  storedVoltageMv : ℤ
  solarVoltageMv : ℤ
  status : MonitorStatus
  sleepTicks : ℕ
  deriving DecidableEq, Repr

/-- Modelled from the spec: the sleep duration fed back to the wake timer,
derived from the beacon interval of the current plan. -/
def sleepTicksFor (plan : SensorPlan) : ℕ :=
  plan.beaconIntervalTicks

/-- Modelled from the spec: one wake cycle of the FlightStateMachine (no
FlightStateMachine exists under src).  The freefall latch is consumed
first and forces Descent; the energy monitor then updates the tier; the
scheduler computes the plan; the sleep duration handed to the wake timer
is derived from the plan. -/
def runCycle (st : FlightState) (rawStoredMv rawSolarMv : ℤ) : FlightState × CycleOutput :=
  let consumed := consumeEvent st.freefallLatch
  let mode1 := if consumed.1 then FlightMode.descent else st.mode
  let upd := energyUpdate st.tier rawStoredMv rawSolarMv
  let plan := sensorPlan upd.tier mode1 st.tickIndex
  (⟨mode1, upd.tier, consumed.2, st.tickIndex + 1⟩,
   ⟨plan, upd.storedVoltageMv, upd.solarVoltageMv, upd.status, sleepTicksFor plan⟩)

namespace PowerManager

/-- Embedded from src/firmware/src/power_manager.cpp: the body of
PowerManager::isLowBattery is a single statement returning false; it
reads no state. -/
def isLowBattery : Bool := false

end PowerManager


theorem power_tier_full_mv_eq : (POWER_TIER_FULL_MV : ℚ) = POWER_TIER_FULL_V * 1000 := by
  simp [POWER_TIER_FULL_MV, POWER_TIER_FULL_V]; norm_num

theorem power_tier_reduced_mv_eq : (POWER_TIER_REDUCED_MV : ℚ) = POWER_TIER_REDUCED_V * 1000 := by
  simp [POWER_TIER_REDUCED_MV, POWER_TIER_REDUCED_V]; norm_num

theorem power_tier_no_gps_mv_eq : (POWER_TIER_NO_GPS_MV : ℚ) = POWER_TIER_NO_GPS_V * 1000 := by
  simp [POWER_TIER_NO_GPS_MV, POWER_TIER_NO_GPS_V]; norm_num

theorem supercap_bounds_mv_eq :
    (SUPERCAP_MAX_MV : ℚ) = SUPERCAP_MAX_V * 1000 ∧
    (SUPERCAP_MIN_MV : ℚ) = SUPERCAP_MIN_V * 1000 := by
  constructor <;> · simp [SUPERCAP_MAX_MV, SUPERCAP_MAX_V, SUPERCAP_MIN_MV, SUPERCAP_MIN_V]; norm_num

theorem tierFromVoltageMv_emergency {v : ℤ} (h : v < 3000) :
    tierFromVoltageMv v = .emergency := by
  unfold tierFromVoltageMv POWER_TIER_FULL_MV POWER_TIER_REDUCED_MV POWER_TIER_NO_GPS_MV
  rw [if_neg (by omega), if_neg (by omega), if_neg (by omega)]

theorem tierFromVoltageMv_noGps {v : ℤ} (h1 : 3000 ≤ v) (h2 : v < 3500) :
    tierFromVoltageMv v = .noGps := by
  unfold tierFromVoltageMv POWER_TIER_FULL_MV POWER_TIER_REDUCED_MV POWER_TIER_NO_GPS_MV
  rw [if_neg (by omega), if_neg (by omega), if_pos (by omega)]

theorem tierFromVoltageMv_reduced {v : ℤ} (h1 : 3500 ≤ v) (h2 : v < 4500) :
    tierFromVoltageMv v = .reduced := by
  unfold tierFromVoltageMv POWER_TIER_FULL_MV POWER_TIER_REDUCED_MV
  rw [if_neg (by omega), if_pos (by omega)]

theorem tierFromVoltageMv_full {v : ℤ} (h : 4500 ≤ v) :
    tierFromVoltageMv v = .full := by
  unfold tierFromVoltageMv POWER_TIER_FULL_MV
  rw [if_pos (by omega)]

theorem tierFromVoltageRiseMv_emergency {v : ℤ} (h : v < 3200) :
    tierFromVoltageRiseMv v = .emergency := by
  unfold tierFromVoltageRiseMv POWER_TIER_FULL_MV POWER_TIER_REDUCED_MV
    POWER_TIER_NO_GPS_MV HYSTERESIS_BAND_MV
  rw [if_neg (by omega), if_neg (by omega), if_neg (by omega)]

theorem tierFromVoltageRiseMv_noGps {v : ℤ} (h1 : 3200 ≤ v) (h2 : v < 3700) :
    tierFromVoltageRiseMv v = .noGps := by
  unfold tierFromVoltageRiseMv POWER_TIER_FULL_MV POWER_TIER_REDUCED_MV
    POWER_TIER_NO_GPS_MV HYSTERESIS_BAND_MV
  rw [if_neg (by omega), if_neg (by omega), if_pos (by omega)]

theorem tierFromVoltageRiseMv_reduced {v : ℤ} (h1 : 3700 ≤ v) (h2 : v < 4700) :
    tierFromVoltageRiseMv v = .reduced := by
  unfold tierFromVoltageRiseMv POWER_TIER_FULL_MV POWER_TIER_REDUCED_MV HYSTERESIS_BAND_MV
  rw [if_neg (by omega), if_pos (by omega)]

theorem tierFromVoltageRiseMv_full {v : ℤ} (h : 4700 ≤ v) :
    tierFromVoltageRiseMv v = .full := by
  unfold tierFromVoltageRiseMv POWER_TIER_FULL_MV HYSTERESIS_BAND_MV
  rw [if_pos (by omega)]

theorem tier_hysteresis_step (prev : PowerTier) (v : ℤ) :
    ((updateTier prev v).rank < prev.rank → v < prev.enterMv) ∧
    (prev.rank < (updateTier prev v).rank → (updateTier prev v).exitMv ≤ v) ∧
    (∀ b hi lo, (b, hi, lo) ∈ tierBoundaries → (prev = hi ∨ prev = lo) →
      b ≤ v → v < b + HYSTERESIS_BAND_MV → updateTier prev v = prev) := by
  have regions : v < 3000 ∨ (3000 ≤ v ∧ v < 3200) ∨ (3200 ≤ v ∧ v < 3500) ∨
      (3500 ≤ v ∧ v < 3700) ∨ (3700 ≤ v ∧ v < 4500) ∨ (4500 ≤ v ∧ v < 4700) ∨
      4700 ≤ v := by omega
  rcases regions with h | ⟨h1, h2⟩ | ⟨h1, h2⟩ | ⟨h1, h2⟩ | ⟨h1, h2⟩ | ⟨h1, h2⟩ | h
  case inl =>
    have hd : tierFromVoltageMv v = .emergency := tierFromVoltageMv_emergency h
    have hu : tierFromVoltageRiseMv v = .emergency := tierFromVoltageRiseMv_emergency (by omega)
    refine ⟨?_, ?_, ?_⟩
    · cases prev <;>
        norm_num [updateTier, hd, hu, PowerTier.rank, PowerTier.enterMv,
          POWER_TIER_FULL_MV, POWER_TIER_REDUCED_MV, POWER_TIER_NO_GPS_MV] <;> omega
    · cases prev <;>
        norm_num [updateTier, hd, hu, PowerTier.rank]
    · intro b hi lo hmem hadj hlow hhigh
      simp only [tierBoundaries, POWER_TIER_FULL_MV, POWER_TIER_REDUCED_MV,
        POWER_TIER_NO_GPS_MV, HYSTERESIS_BAND_MV, List.mem_cons,
        List.not_mem_nil, or_false, Prod.mk.injEq] at hmem hhigh
      rcases hmem with ⟨hb, hhi, hlo⟩ | ⟨hb, hhi, hlo⟩ | ⟨hb, hhi, hlo⟩ <;> omega
  case inr.inl =>
    have hd : tierFromVoltageMv v = .noGps := tierFromVoltageMv_noGps h1 (by omega)
    have hu : tierFromVoltageRiseMv v = .emergency := tierFromVoltageRiseMv_emergency (by omega)
    refine ⟨?_, ?_, ?_⟩
    · cases prev <;>
        norm_num [updateTier, hd, hu, PowerTier.rank, PowerTier.enterMv,
          POWER_TIER_FULL_MV, POWER_TIER_REDUCED_MV, POWER_TIER_NO_GPS_MV] <;> omega
    · cases prev <;>
        norm_num [updateTier, hd, hu, PowerTier.rank]
    · intro b hi lo hmem hadj hlow hhigh
      simp only [tierBoundaries, POWER_TIER_FULL_MV, POWER_TIER_REDUCED_MV,
        POWER_TIER_NO_GPS_MV, HYSTERESIS_BAND_MV, List.mem_cons,
        List.not_mem_nil, or_false, Prod.mk.injEq] at hmem hhigh
      rcases hmem with ⟨hb, hhi, hlo⟩ | ⟨hb, hhi, hlo⟩ | ⟨hb, hhi, hlo⟩ <;>
        subst hb <;> subst hhi <;> subst hlo <;>
        rcases hadj with rfl | rfl <;>
        first
        | omega
        | norm_num [updateTier, hd, hu, PowerTier.rank]
  case inr.inr.inl =>
    have hd : tierFromVoltageMv v = .noGps := tierFromVoltageMv_noGps (by omega) (by omega)
    have hu : tierFromVoltageRiseMv v = .noGps := tierFromVoltageRiseMv_noGps h1 (by omega)
    refine ⟨?_, ?_, ?_⟩
    · cases prev <;>
        norm_num [updateTier, hd, hu, PowerTier.rank, PowerTier.enterMv,
          POWER_TIER_FULL_MV, POWER_TIER_REDUCED_MV, POWER_TIER_NO_GPS_MV] <;> omega
    · cases prev <;>
        norm_num [updateTier, hd, hu, PowerTier.rank, PowerTier.exitMv,
          PowerTier.enterMv, POWER_TIER_NO_GPS_MV, HYSTERESIS_BAND_MV] <;> omega
    · intro b hi lo hmem hadj hlow hhigh
      simp only [tierBoundaries, POWER_TIER_FULL_MV, POWER_TIER_REDUCED_MV,
        POWER_TIER_NO_GPS_MV, HYSTERESIS_BAND_MV, List.mem_cons,
        List.not_mem_nil, or_false, Prod.mk.injEq] at hmem hhigh
      rcases hmem with ⟨hb, hhi, hlo⟩ | ⟨hb, hhi, hlo⟩ | ⟨hb, hhi, hlo⟩ <;>
        subst hb <;> subst hhi <;> subst hlo <;>
        rcases hadj with rfl | rfl <;>
        first
        | omega
        | norm_num [updateTier, hd, hu, PowerTier.rank]
  case inr.inr.inr.inl =>
    have hd : tierFromVoltageMv v = .reduced := tierFromVoltageMv_reduced h1 (by omega)
    have hu : tierFromVoltageRiseMv v = .noGps := tierFromVoltageRiseMv_noGps (by omega) (by omega)
    refine ⟨?_, ?_, ?_⟩
    · cases prev <;>
        norm_num [updateTier, hd, hu, PowerTier.rank, PowerTier.enterMv,
          POWER_TIER_FULL_MV, POWER_TIER_REDUCED_MV, POWER_TIER_NO_GPS_MV] <;> omega
    · cases prev <;>
        norm_num [updateTier, hd, hu, PowerTier.rank, PowerTier.exitMv,
          PowerTier.enterMv, POWER_TIER_NO_GPS_MV, HYSTERESIS_BAND_MV] <;> omega
    · intro b hi lo hmem hadj hlow hhigh
      simp only [tierBoundaries, POWER_TIER_FULL_MV, POWER_TIER_REDUCED_MV,
        POWER_TIER_NO_GPS_MV, HYSTERESIS_BAND_MV, List.mem_cons,
        List.not_mem_nil, or_false, Prod.mk.injEq] at hmem hhigh
      rcases hmem with ⟨hb, hhi, hlo⟩ | ⟨hb, hhi, hlo⟩ | ⟨hb, hhi, hlo⟩ <;>
        subst hb <;> subst hhi <;> subst hlo <;>
        rcases hadj with rfl | rfl <;>
        first
        | omega
        | norm_num [updateTier, hd, hu, PowerTier.rank]
  case inr.inr.inr.inr.inl =>
    have hd : tierFromVoltageMv v = .reduced := tierFromVoltageMv_reduced (by omega) (by omega)
    have hu : tierFromVoltageRiseMv v = .reduced := tierFromVoltageRiseMv_reduced h1 (by omega)
    refine ⟨?_, ?_, ?_⟩
    · cases prev <;>
        norm_num [updateTier, hd, hu, PowerTier.rank, PowerTier.enterMv,
          POWER_TIER_FULL_MV, POWER_TIER_REDUCED_MV, POWER_TIER_NO_GPS_MV] <;> omega
    · cases prev <;>
        norm_num [updateTier, hd, hu, PowerTier.rank, PowerTier.exitMv,
          PowerTier.enterMv, POWER_TIER_REDUCED_MV, HYSTERESIS_BAND_MV] <;> omega
    · intro b hi lo hmem hadj hlow hhigh
      simp only [tierBoundaries, POWER_TIER_FULL_MV, POWER_TIER_REDUCED_MV,
        POWER_TIER_NO_GPS_MV, HYSTERESIS_BAND_MV, List.mem_cons,
        List.not_mem_nil, or_false, Prod.mk.injEq] at hmem hhigh
      rcases hmem with ⟨hb, hhi, hlo⟩ | ⟨hb, hhi, hlo⟩ | ⟨hb, hhi, hlo⟩ <;> omega
  case inr.inr.inr.inr.inr.inl =>
    have hd : tierFromVoltageMv v = .full := tierFromVoltageMv_full h1
    have hu : tierFromVoltageRiseMv v = .reduced := tierFromVoltageRiseMv_reduced (by omega) (by omega)
    refine ⟨?_, ?_, ?_⟩
    · cases prev <;>
        norm_num [updateTier, hd, hu, PowerTier.rank, PowerTier.enterMv,
          POWER_TIER_FULL_MV, POWER_TIER_REDUCED_MV, POWER_TIER_NO_GPS_MV] <;> omega
    · cases prev <;>
        norm_num [updateTier, hd, hu, PowerTier.rank, PowerTier.exitMv,
          PowerTier.enterMv, POWER_TIER_REDUCED_MV, HYSTERESIS_BAND_MV] <;> omega
    · intro b hi lo hmem hadj hlow hhigh
      simp only [tierBoundaries, POWER_TIER_FULL_MV, POWER_TIER_REDUCED_MV,
        POWER_TIER_NO_GPS_MV, HYSTERESIS_BAND_MV, List.mem_cons,
        List.not_mem_nil, or_false, Prod.mk.injEq] at hmem hhigh
      rcases hmem with ⟨hb, hhi, hlo⟩ | ⟨hb, hhi, hlo⟩ | ⟨hb, hhi, hlo⟩ <;>
        subst hb <;> subst hhi <;> subst hlo <;>
        rcases hadj with rfl | rfl <;>
        first
        | omega
        | norm_num [updateTier, hd, hu, PowerTier.rank]
  case inr.inr.inr.inr.inr.inr =>
    have hd : tierFromVoltageMv v = .full := tierFromVoltageMv_full (by omega)
    have hu : tierFromVoltageRiseMv v = .full := tierFromVoltageRiseMv_full h
    refine ⟨?_, ?_, ?_⟩
    · cases prev <;>
        norm_num [updateTier, hd, hu, PowerTier.rank, PowerTier.enterMv,
          POWER_TIER_FULL_MV, POWER_TIER_REDUCED_MV, POWER_TIER_NO_GPS_MV] <;> omega
    · cases prev <;>
        norm_num [updateTier, hd, hu, PowerTier.rank, PowerTier.exitMv,
          PowerTier.enterMv, POWER_TIER_FULL_MV, HYSTERESIS_BAND_MV] <;> omega
    · intro b hi lo hmem hadj hlow hhigh
      simp only [tierBoundaries, POWER_TIER_FULL_MV, POWER_TIER_REDUCED_MV,
        POWER_TIER_NO_GPS_MV, HYSTERESIS_BAND_MV, List.mem_cons,
        List.not_mem_nil, or_false, Prod.mk.injEq] at hmem hhigh
      rcases hmem with ⟨hb, hhi, hlo⟩ | ⟨hb, hhi, hlo⟩ | ⟨hb, hhi, hlo⟩ <;> omega

theorem persistedTier_append (init : PowerTier) (pre : List ℤ) (v : ℤ) :
    persistedTier init (pre ++ [v]) = updateTier (persistedTier init pre) v := by
  simp [persistedTier, List.foldl_append]

/-- Claim C1: over every sequence of stored-voltage readings processed by
the energy monitor, the persisted tier evolves hysteretically.  For any
prefix of readings already processed and any next reading v: the tier is
lowered only when v has dropped below the enter threshold of the current
tier; the tier is raised only when v has reached the exit threshold (enter
threshold plus hysteresis band) of the new, higher tier; and when v lies
inside the hysteresis band of a boundary adjacent to the current tier —
crossing the boundary by less than the band — the tier does not change. -/
theorem c1_tier_hysteresis (init : PowerTier) (pre : List ℤ) (v : ℤ) :
    ((persistedTier init (pre ++ [v])).rank < (persistedTier init pre).rank →
      v < (persistedTier init pre).enterMv) ∧
    ((persistedTier init pre).rank < (persistedTier init (pre ++ [v])).rank →
      (persistedTier init (pre ++ [v])).exitMv ≤ v) ∧
    (∀ b hi lo, (b, hi, lo) ∈ tierBoundaries →
      (persistedTier init pre = hi ∨ persistedTier init pre = lo) →
      b ≤ v → v < b + HYSTERESIS_BAND_MV →
      persistedTier init (pre ++ [v]) = persistedTier init pre) := by
  rw [persistedTier_append]
  exact tier_hysteresis_step (persistedTier init pre) v

/-- Witness for C1: a Full tier holding at 4.8 V that sees a single 4.6 V
reading — inside the 4.5 V boundary band — keeps the Full tier. -/
theorem c1_tier_hysteresis_witness :
    persistedTier PowerTier.full ([] ++ [4600]) = persistedTier PowerTier.full [] :=
  (c1_tier_hysteresis PowerTier.full [] 4600).2.2 4500 PowerTier.full PowerTier.reduced
    (by decide) (Or.inl rfl) (by decide) (by decide)

theorem rfStep_preserves (st : RfArbiterState) (op : RfOp)
    (h : st.bothLeased = false) : (rfStep st op).bothLeased = false := by
  obtain ⟨g, l⟩ := st
  revert h
  rcases op with r | r <;> cases r <;> cases g <;> cases l <;> decide

theorem rfRun_at_most_one (ops : List RfOp) : (rfRun ops).bothLeased = false := by
  suffices h : ∀ st : RfArbiterState, st.bothLeased = false →
      (ops.foldl rfStep st).bothLeased = false from h rfInit rfl
  induction ops with
  | nil => exact fun st h => h
  | cons op rest ih => exact fun st h => ih _ (rfStep_preserves st op h)

/-- Claim C2 counterexample: with a GPS lease outstanding, a second
acquire of GPS itself returns Busy even though no lease for the other
resource (LoRa) is outstanding — the lease token is non-reentrant — so
acquire does not return Busy exactly when the other resource is leased. -/
theorem c2_busy_without_other_lease :
    (acquire (rfRun [RfOp.acq RfResource.gpsAcquisition]) RfResource.gpsAcquisition).1 =
      AcquireResult.busy ∧
    (rfRun [RfOp.acq RfResource.gpsAcquisition]).leased
      (RfResource.other RfResource.gpsAcquisition) = false := by
  decide

/-- Claim C2 (amended): for every interleaving of acquire and release
calls at most one RF lease is outstanding at any instant, and acquire
returns Busy exactly when a lease for either resource is already
outstanding. -/
theorem c2_rf_arbiter_mutual_exclusion :
    (∀ ops : List RfOp, (rfRun ops).bothLeased = false) ∧
    (∀ (st : RfArbiterState) (r : RfResource),
      (acquire st r).1.isBusy = (st.gpsLeased || st.loraLeased)) := by
  refine ⟨rfRun_at_most_one, ?_⟩
  rintro ⟨g, l⟩ r
  cases r <;> cases g <;> cases l <;> decide

/-- Claim C3: a plan computed in Descent mode includes GPS for the Full,
Reduced and NoGps tiers and excludes it exactly at the Emergency tier;
in particular, a latched freefall event consumed on a cycle whose tier
comes out as NoGps yields a plan that includes GPS. -/
theorem c3_descent_gps :
    (∀ (tier : PowerTier) (tickIndex : ℕ),
      (sensorPlan tier FlightMode.descent tickIndex).includeGps =
        decide (tier ≠ PowerTier.emergency)) ∧
    (∀ (st : FlightState) (rawStoredMv rawSolarMv : ℤ),
      st.freefallLatch = true →
      (runCycle st rawStoredMv rawSolarMv).1.tier = PowerTier.noGps →
      ((runCycle st rawStoredMv rawSolarMv).2.plan).includeGps = true) := by
  constructor
  · intro tier tickIndex
    cases tier <;> rfl
  · intro st rawStoredMv rawSolarMv hlatch htier
    simp only [runCycle, consumeEvent, hlatch, if_pos] at htier ⊢
    rw [htier]
    rfl

/-- Witness for C3: a freefall latched while floating at the NoGps tier,
with an in-range 3.1 V stored reading, produces a plan with GPS. -/
theorem c3_descent_gps_witness :
    ((runCycle ⟨FlightMode.float, PowerTier.noGps, true, 5⟩ 1550 100).2.plan).includeGps =
      true :=
  c3_descent_gps.2 ⟨FlightMode.float, PowerTier.noGps, true, 5⟩ 1550 100 rfl (by decide)

theorem ffRun_no_interrupt :
    ∀ ops : List FfOp, (∀ op ∈ ops, op ≠ FfOp.interruptFire) →
      ffRun false ops = false := by
  intro ops
  induction ops with
  | nil => intro _; rfl
  | cons op rest ih =>
      intro h
      have h1 : ffStep false op = false := by
        cases op with
        | interruptFire => exact absurd rfl (h _ (by simp))
        | consume => rfl
        | mainStep => rfl
      show List.foldl ffStep (ffStep false op) rest = false
      rw [h1]
      exact ih fun o ho => h o (List.mem_cons_of_mem _ ho)

/-- Claim C4: consumeEvent reads and clears the latch in one atomic step,
returning the pre-state value; among all operations that can touch the
latch, consume is the only one that clears a set latch (so the flag is
never cleared without having been observed); and after a set latch has
been consumed once, a later consume observes false unless a new interrupt
fired in between. -/
theorem c4_freefall_consume :
    (∀ latch : Bool, consumeEvent latch = (latch, false)) ∧
    (∀ (latch : Bool) (op : FfOp),
      latch = true → ffStep latch op = false → op = FfOp.consume) ∧
    (∀ (latch : Bool) (ops : List FfOp),
      (∀ op ∈ ops, op ≠ FfOp.interruptFire) →
      (consumeEvent (ffRun (consumeEvent latch).2 ops)).1 = false) := by
  refine ⟨fun _ => rfl, ?_, ?_⟩
  · intro latch op hl hstep
    cases op <;> simp_all [ffStep, consumeEvent]
  · intro latch ops h
    show (consumeEvent (ffRun false ops)).1 = false
    rw [ffRun_no_interrupt ops h]
    rfl

/-- Witness for C4: a set latch consumed once and followed by an
interrupt-free main step is observed as false by the next consume. -/
theorem c4_freefall_consume_witness :
    (consumeEvent (ffRun (consumeEvent true).2 [FfOp.mainStep])).1 = false :=
  c4_freefall_consume.2.2 true [FfOp.mainStep] (by decide)

/-- Claim C5: an ADC reading outside the physically possible range — a
negative raw value, or one whose recovered rail voltage exceeds the
supply-rail equivalent of its divider — makes the energy monitor report
OutOfRange and force the Emergency tier instead of deriving a tier from
the bogus reading. -/
theorem c5_out_of_range (prev : PowerTier) (rawStoredMv rawSolarMv : ℤ)
    (h : rawStoredMv < 0 ∨ SUPERCAP_MAX_MV < 2 * rawStoredMv ∨
      rawSolarMv < 0 ∨ SOLAR_RAIL_MAX_MV < 2 * rawSolarMv) :
    (energyUpdate prev rawStoredMv rawSolarMv).status = MonitorStatus.outOfRange ∧
    (energyUpdate prev rawStoredMv rawSolarMv).tier = PowerTier.emergency := by
  unfold energyUpdate
  rw [if_neg (by omega)]
  exact ⟨rfl, rfl⟩

/-- Witness for C5: a negative raw stored-voltage reading forces
OutOfRange and the Emergency tier. -/
theorem c5_out_of_range_witness :
    (energyUpdate PowerTier.full (-1) 100).status = MonitorStatus.outOfRange ∧
    (energyUpdate PowerTier.full (-1) 100).tier = PowerTier.emergency :=
  c5_out_of_range PowerTier.full (-1) 100 (Or.inl (by decide))

/-- Claim C6: the sleep duration a wake cycle hands to the wake-timer
collaborator equals the beacon interval of the sensor plan of that cycle
— it is a function of SensorPlan.beaconIntervalTicks alone — and it is
the single wake-timer field of the cycle output; it varies with tier
(Full versus Emergency) and with mode (Float versus Descent). -/
theorem c6_sleep_from_plan :
    (∀ (st : FlightState) (rawStoredMv rawSolarMv : ℤ),
      (runCycle st rawStoredMv rawSolarMv).2.sleepTicks =
        ((runCycle st rawStoredMv rawSolarMv).2.plan).beaconIntervalTicks) ∧
    (∀ (st1 st2 : FlightState) (r1 r2 r3 r4 : ℤ),
      ((runCycle st1 r1 r2).2.plan).beaconIntervalTicks =
        ((runCycle st2 r3 r4).2.plan).beaconIntervalTicks →
      (runCycle st1 r1 r2).2.sleepTicks = (runCycle st2 r3 r4).2.sleepTicks) ∧
    (runCycle ⟨FlightMode.float, PowerTier.full, false, 0⟩ 2300 100).2.sleepTicks ≠
      (runCycle ⟨FlightMode.float, PowerTier.emergency, false, 0⟩ 1300 100).2.sleepTicks ∧
    (runCycle ⟨FlightMode.float, PowerTier.noGps, false, 0⟩ 1550 100).2.sleepTicks ≠
      (runCycle ⟨FlightMode.descent, PowerTier.noGps, false, 0⟩ 1550 100).2.sleepTicks := by
  refine ⟨fun st r1 r2 => rfl, ?_, by decide, by decide⟩
  intro st1 st2 r1 r2 r3 r4 h
  show sleepTicksFor (runCycle st1 r1 r2).2.plan = sleepTicksFor (runCycle st2 r3 r4).2.plan
  unfold sleepTicksFor
  exact h

/-- Witness for C6: Full tier in Float mode and Full tier in Descent mode
both plan a beacon every tick, and the sleep durations handed to the wake
timer agree. -/
theorem c6_sleep_from_plan_witness :
    (runCycle ⟨FlightMode.float, PowerTier.full, false, 0⟩ 2300 100).2.sleepTicks =
      (runCycle ⟨FlightMode.descent, PowerTier.full, false, 0⟩ 2300 100).2.sleepTicks :=
  c6_sleep_from_plan.2.1 ⟨FlightMode.float, PowerTier.full, false, 0⟩
    ⟨FlightMode.descent, PowerTier.full, false, 0⟩ 2300 100 2300 100 (by decide)

/-- Claim C7: the energy monitor recovers both rail voltages by
multiplying each raw ADC reading by exactly two, and the divider-ratio
constants of board.h are exactly 2.0 for both dividers. -/
theorem c7_divider_scale :
    (∀ (prev : PowerTier) (rawStoredMv rawSolarMv : ℤ),
      (energyUpdate prev rawStoredMv rawSolarMv).storedVoltageMv = 2 * rawStoredMv ∧
      (energyUpdate prev rawStoredMv rawSolarMv).solarVoltageMv = 2 * rawSolarMv) ∧
     VSTOR_DIVIDER_RATIO = 2 ∧ SOLAR_DIVIDER_RATIO = 2 := by
  refine ⟨?_, by norm_num [ VSTOR_DIVIDER_RATIO], by norm_num [ SOLAR_DIVIDER_RATIO]⟩
  intro prev rawStoredMv rawSolarMv
  unfold energyUpdate
  split <;> exact ⟨rfl, rfl⟩

/-- Claim C8: PowerManager::isLowBattery as implemented in
power_manager.cpp returns false on every call; it consults no state, so
it never reports a low battery whatever the supercap voltage is. -/
theorem c8_is_low_battery_false : PowerManager.isLowBattery = false := rfl

/-- Claim C9: the four power-tier threshold constants are strictly
decreasing and the whole chain lies strictly between SUPERCAP_MIN_V and
SUPERCAP_MAX_V, so every tier is reached by some physically possible
stored voltage. -/
theorem c9_tier_thresholds_ordered :
    SUPERCAP_MIN_V < POWER_TIER_EMERGENCY_V ∧
    POWER_TIER_EMERGENCY_V < POWER_TIER_NO_GPS_V ∧
    POWER_TIER_NO_GPS_V < POWER_TIER_REDUCED_V ∧
    POWER_TIER_REDUCED_V < POWER_TIER_FULL_V ∧
    POWER_TIER_FULL_V < SUPERCAP_MAX_V ∧
    (∀ t : PowerTier, ∃ v : ℤ, SUPERCAP_MIN_MV ≤ v ∧ v ≤ SUPERCAP_MAX_MV ∧
      tierFromVoltageMv v = t) := by
  refine ⟨?_, ?_, ?_, ?_, ?_, ?_⟩
  · norm_num [SUPERCAP_MIN_V, POWER_TIER_EMERGENCY_V]
  · norm_num [POWER_TIER_EMERGENCY_V, POWER_TIER_NO_GPS_V]
  · norm_num [POWER_TIER_NO_GPS_V, POWER_TIER_REDUCED_V]
  · norm_num [POWER_TIER_REDUCED_V, POWER_TIER_FULL_V]
  · norm_num [POWER_TIER_FULL_V, SUPERCAP_MAX_V]
  · intro t
    cases t with
    | full => exact ⟨4600, by decide, by decide, by decide⟩
    | reduced => exact ⟨3600, by decide, by decide, by decide⟩
    | noGps => exact ⟨3100, by decide, by decide, by decide⟩
    | emergency => exact ⟨2600, by decide, by decide, by decide⟩

/-- Claim C10: the only hysteresis in the implemented constants is the
hardware VBAT_OK flag, whose rising threshold exceeds its falling
threshold by 1818 mV, while each firmware tier boundary is one single
constant: the classifier derived from the four POWER_TIER constants
switches at the same point in both directions, since the boundary value
itself classifies as the upper tier and any drop below it, however small,
leaves the upper tier. -/
theorem c10_hardware_hysteresis_only :
    BQ25570_VBAT_OK_FALL_MV < BQ25570_VBAT_OK_RISE_MV ∧
    BQ25570_VBAT_OK_RISE_MV - BQ25570_VBAT_OK_FALL_MV = 1818 ∧
    (∀ b hi lo, (b, hi, lo) ∈ tierBoundaries →
      tierFromVoltageMv b = hi ∧
      ∀ e : ℤ, 0 < e → tierFromVoltageMv (b - e) ≠ hi) := by
  refine ⟨by decide, by decide, ?_⟩
  intro b hi lo hmem
  simp only [tierBoundaries, List.mem_cons, List.not_mem_nil, or_false,
    Prod.mk.injEq] at hmem
  rcases hmem with ⟨hb, hhi, hlo⟩ | ⟨hb, hhi, hlo⟩ | ⟨hb, hhi, hlo⟩ <;>
    subst hb <;> subst hhi <;> subst hlo
  · refine ⟨by decide, ?_⟩
    intro e he
    rcases (show POWER_TIER_FULL_MV - e < 3000 ∨
        (3000 ≤ POWER_TIER_FULL_MV - e ∧ POWER_TIER_FULL_MV - e < 3500) ∨
        (3500 ≤ POWER_TIER_FULL_MV - e ∧ POWER_TIER_FULL_MV - e < 4500) by
          unfold POWER_TIER_FULL_MV; omega) with h | ⟨h1, h2⟩ | ⟨h1, h2⟩
    · rw [tierFromVoltageMv_emergency h]; decide
    · rw [tierFromVoltageMv_noGps h1 h2]; decide
    · rw [tierFromVoltageMv_reduced h1 h2]; decide
  · refine ⟨by decide, ?_⟩
    intro e he
    rcases (show POWER_TIER_REDUCED_MV - e < 3000 ∨
        (3000 ≤ POWER_TIER_REDUCED_MV - e ∧ POWER_TIER_REDUCED_MV - e < 3500) by
          unfold POWER_TIER_REDUCED_MV; omega) with h | ⟨h1, h2⟩
    · rw [tierFromVoltageMv_emergency h]; decide
    · rw [tierFromVoltageMv_noGps h1 h2]; decide
  · refine ⟨by decide, ?_⟩
    intro e he
    have h : POWER_TIER_NO_GPS_MV - e < 3000 := by unfold POWER_TIER_NO_GPS_MV; omega
    rw [tierFromVoltageMv_emergency h]; decide

/-- Witness for C10: one millivolt below the 4.5 V constant already
leaves the Full classification, exhibiting the zero-width firmware
boundary. -/
theorem c10_hardware_hysteresis_only_witness :
    tierFromVoltageMv (4500 - 1) ≠ PowerTier.full :=
  (c10_hardware_hysteresis_only.2.2 4500 PowerTier.full PowerTier.reduced (by decide)).2
    1 (by decide)

end Stratolink
